import Mathlib

/-!
Verification of the DHTNEW single-wire humidity/temperature sensor driver
(dhtnew.cpp, version 0.3.2) against its natural-language specification.

The driver is embedded shallowly:

* The handle (class DHTNEW) becomes the structure `DHTNEW`; machine floats
  become exact rationals, `uint8_t` frame bytes become `Fin 256`, times
  become `Nat` milliseconds.
* The hardware interaction of `DHTNEW::_readSensor` (wake-up handshake and
  bit sampling on the data line) is abstracted as an environment input
  `SensorInput`: either the handshake/sampling fails at some stage
  (`hwFail`, carrying whatever bits had been clocked in before the
  failure), or all 40 bits are sampled, yielding a 5-byte `Frame`.
  Everything downstream of the sampling loop (the bit-shift sanity check,
  error propagation, decoding, offsets, clamping, checksum) is translated
  line by line from the source.
* Pin writes and transport attempts are recorded in an event trace so that
  "no transport is performed" is a provable statement.
-/

/-- Modelled from the spec: the status-code taxonomy returned by
read / _read / _readSensor is OK, ChecksumError, BitShift, SensorNotReady,
TimeoutA..TimeoutD (spec section 6); the concrete numeric values live in
dhtnew.h, which is not among the sources. -/
inductive DhtStatus where
  | ok
  | errChecksum
  | errBitShift
  | errSensorNotReady
  | errTimeoutA
  | errTimeoutB
  | errTimeoutC
  | errTimeoutD
deriving DecidableEq

/-- One 5-byte (40-bit) frame as sampled by `_readSensor` (the `_bits`
buffer): humidity high/low byte, temperature high/low byte, checksum. -/
structure Frame where
  b0 : Fin 256
  b1 : Fin 256
  b2 : Fin 256
  b3 : Fin 256
  b4 : Fin 256
deriving DecidableEq

/-- The all-zero frame (the `_bits` buffer right after it is emptied). -/
def Frame.zero : Frame := ⟨0, 0, 0, 0, 0⟩

/-- The ways the hardware handshake / sampling loops of `_readSensor`
(dhtnew.cpp lines 224-286) can fail: the sensor never pulls the line low
(SENSOR_NOT_READY), or one of the four bounded busy-wait stages times out. -/
inductive HwFailure where
  | notReady
  | timeoutA
  | timeoutB
  | timeoutC
  | timeoutD
deriving DecidableEq

/-- The status code each hardware failure is reported as. -/
def HwFailure.toStatus : HwFailure → DhtStatus
  | .notReady => .errSensorNotReady
  | .timeoutA => .errTimeoutA
  | .timeoutB => .errTimeoutB
  | .timeoutC => .errTimeoutC
  | .timeoutD => .errTimeoutD

/-- What the environment (sensor + data line) does during one transport
attempt of `_readSensor`: either some handshake/sampling stage fails
(`hwFail e g`, where `g` is the partially filled bit buffer at the moment
of failure), or all 40 bits are clocked in, producing frame `f`. -/
inductive SensorInput where
  | hwFail (e : HwFailure) (g : Frame)
  | frame (f : Frame)
deriving DecidableEq

/-- Hardware events performed by the driver, recorded as a trace: explicit
pin-mode/pin-write operations and whole transport attempts (wake-up pulse
plus sampling, abstracted as one event carrying the environment input). -/
inductive Event where
  | transport (inp : SensorInput)
  | pinModeOutput
  | writeHigh
  | writeLow
deriving DecidableEq

/-- dhtnew.cpp line 28: wake-up pulse length (ms) for the type-11 family. -/
def DHTLIB_DHT11_WAKEUP : Nat := 18

/-- dhtnew.cpp line 29: wake-up pulse length (ms) for the type-22 family. -/
def DHTLIB_DHT_WAKEUP : Nat := 1

/-- dhtnew.cpp line 36: default minimum read interval (ms) for type 11. -/
def DHTLIB_DHT11_READ_DELAY : Nat := 1000

/-- dhtnew.cpp line 37: default minimum read interval (ms) for type 22. -/
def DHTLIB_DHT22_READ_DELAY : Nat := 2000

/-- Modelled from the spec: the invalid sentinel value written into
humidity/temperature after a failed read (spec section 3).  Its numeric
value is an overridable macro in dhtnew.h, which is not among the sources;
the claims only need it to be one fixed distinguished value. -/
def DHTLIB_INVALID_VALUE : ℚ := -999

/-- The Arduino `constrain(amt, low, high)` macro:
`(amt < low) ? low : ((amt > high) ? high : amt)`. -/
def constrain (x lo hi : ℚ) : ℚ :=
  if x < lo then lo else if x > hi then hi else x

/-- The DHTNEW handle (the private state of class DHTNEW).  `_type` is 0
(unknown), 11 (VariantA) or 22 (VariantB); times are in milliseconds.
Default member values (type 0, zero offsets, flags off) are modelled from
the spec where they live in dhtnew.h, which is not among the sources. -/
structure DHTNEW where
  _dataPin : Nat
  _type : Nat
  _wakeupDelay : Nat
  _readDelay : Nat
  _lastRead : Nat
  _humidity : ℚ
  _temperature : ℚ
  _humOffset : ℚ
  _tempOffset : ℚ
  _suppressError : Bool
  _waitForRead : Bool
  _bits : Frame
deriving DecidableEq

/-- Modelled from the spec: the default member values of a fresh handle
(variant starts Unknown, offsets zero, suppression and blocking off), which
live in dhtnew.h, not among the sources; the constructor
`DHTNEW::DHTNEW(pin)` (dhtnew.cpp lines 59-66) itself sets the pin and
`_readDelay = 0`. -/
def DHTNEW.init (pin : Nat) : DHTNEW :=
  { _dataPin := pin
    _type := 0
    _wakeupDelay := 0
    _readDelay := 0
    _lastRead := 0
    _humidity := 0
    _temperature := 0
    _humOffset := 0
    _tempOffset := 0
    _suppressError := false
    _waitForRead := false
    _bits := Frame.zero }

/-- Method `DHTNEW::setType` (dhtnew.cpp lines 68-74): accepts only 0, 11, 22. -/
def DHTNEW.setType (s : DHTNEW) (t : Nat) : DHTNEW :=
  if t = 0 ∨ t = 11 ∨ t = 22 then { s with _type := t } else s

/-- Modelled from the spec: `getType()` returns the current variant
(accessor defined in dhtnew.h, which is not among the sources). -/
def DHTNEW.getType (s : DHTNEW) : Nat := s._type

/-- Method `DHTNEW::_readSensor` (dhtnew.cpp lines 200-294): the buffer is emptied,
the environment drives the handshake and the 40-bit sampling (abstracted by
`inp`), and on fully sampled frames the bit-shift sanity check of lines
288-291 rejects any frame whose first byte has its most significant bit
set, before any checksum consideration. -/
def DHTNEW._readSensor (s : DHTNEW) (inp : SensorInput) : DhtStatus × DHTNEW :=
  match inp with
  | .hwFail e g => (e.toStatus, { s with _bits := g })
  | .frame f =>
      if f.b0.val &&& 0x80 ≠ 0 then (DhtStatus.errBitShift, { s with _bits := f })
      else (DhtStatus.ok, { s with _bits := f })

/-- dhtnew.cpp lines 148-155: raw humidity scaling per variant. -/
def decodeHumidityRaw (t : Nat) (b : Frame) : ℚ :=
  if t = 22 then ((b.b0.val : ℚ) * 256 + (b.b1.val : ℚ)) * (1 / 10)
  else (b.b0.val : ℚ) + (b.b1.val : ℚ) * (1 / 10)

/-- dhtnew.cpp lines 148-155: raw temperature magnitude scaling per
variant (for type 22 the sign bit of byte 2 is masked off). -/
def decodeTemperatureRaw (t : Nat) (b : Frame) : ℚ :=
  if t = 22 then (((b.b2.val &&& 0x7F : Nat) : ℚ) * 256 + (b.b3.val : ℚ)) * (1 / 10)
  else (b.b2.val : ℚ) + (b.b3.val : ℚ) * (1 / 10)

/-- dhtnew.cpp lines 157-160: if bit 7 of byte 2 is set, the temperature is
negated (applied uniformly to both variants). -/
def applySign (b : Frame) (temp : ℚ) : ℚ :=
  if b.b2.val &&& 0x80 ≠ 0 then -temp else temp

/-- dhtnew.cpp lines 146-162: decode the sampled frame into the handle
fields: per-variant raw scaling, sign bit, then offsets (humidity clamped
to [0, 100] after its offset, temperature unclamped). -/
def decodeStore (s : DHTNEW) : DHTNEW :=
  { s with
    _humidity := constrain (decodeHumidityRaw s._type s._bits + s._humOffset) 0 100
    _temperature := applySign s._bits (decodeTemperatureRaw s._type s._bits) + s._tempOffset }

/-- dhtnew.cpp lines 136-170: the part of `_read` after the transport: on a
failed transport, propagate the code, overwriting the values with the
sentinel unless suppression is on; on success decode and store the values,
then compare byte 4 with the 8-bit truncated sum of bytes 0-3. -/
def DHTNEW.interpret (s : DHTNEW) (rv : DhtStatus) (tr : List Event) :
    DhtStatus × DHTNEW × List Event :=
  if rv ≠ DhtStatus.ok then
    if s._suppressError = false then
      (rv, { s with _humidity := DHTLIB_INVALID_VALUE,
                    _temperature := DHTLIB_INVALID_VALUE }, tr)
    else (rv, s, tr)
  else
    if s._bits.b4.val ≠ (s._bits.b0.val + s._bits.b1.val + s._bits.b2.val + s._bits.b3.val) % 256 then
      (DhtStatus.errChecksum, decodeStore s, tr)
    else
      (DhtStatus.ok, decodeStore s, tr)

/-- Method `DHTNEW::_read` (dhtnew.cpp lines 125-171): run the transport, restore
the line to output-high, stamp `_lastRead` with the current time (`now`,
the value of millis() at line 134), then interpret.  The trace records the
transport attempt and the line restoration of lines 132-133. -/
def DHTNEW._read (s : DHTNEW) (now : Nat) (inp : SensorInput) :
    DhtStatus × DHTNEW × List Event :=
  DHTNEW.interpret { (s._readSensor inp).2 with _lastRead := now }
    (s._readSensor inp).1
    [Event.transport inp, Event.pinModeOutput, Event.writeHigh]

/-- dhtnew.cpp lines 87-91: on entry to `read()`, if `_readDelay` is 0 it
is set from the CURRENT `_type` (1000 ms only when `_type` is already 11,
2000 ms otherwise — including when the type is still unknown). -/
def initReadDelay (s : DHTNEW) : DHTNEW :=
  if s._readDelay = 0 then
    { s with _readDelay :=
        if s._type = 11 then DHTLIB_DHT11_READ_DELAY else DHTLIB_DHT22_READ_DELAY }
  else s

/-- dhtnew.cpp line 102-103: first detection attempt state (type 22,
short wake-up). -/
def detectB (s : DHTNEW) : DHTNEW :=
  { s with _type := 22, _wakeupDelay := DHTLIB_DHT_WAKEUP }

/-- dhtnew.cpp line 107-108: second detection attempt state (type 11,
long wake-up). -/
def detectA (s : DHTNEW) : DHTNEW :=
  { s with _type := 11, _wakeupDelay := DHTLIB_DHT11_WAKEUP }

/-- dhtnew.cpp lines 109-113: after a failed second detection attempt the
type is reset to 0 so the next call re-detects; the second attempt's code
is returned either way. -/
def detectFinish (r2 : DhtStatus × DHTNEW × List Event) (tr1 : List Event) :
    DhtStatus × DHTNEW × List Event :=
  if r2.1 = DhtStatus.ok then (r2.1, r2.2.1, tr1 ++ r2.2.2)
  else (r2.1, { r2.2.1 with _type := 0 }, tr1 ++ r2.2.2)

/-- dhtnew.cpp lines 105-113: if the first detection attempt succeeded,
return it; otherwise retry once with type-11 timing. -/
def detectSecond (r1 : DhtStatus × DHTNEW × List Event) (now : Nat) (i2 : SensorInput) :
    DhtStatus × DHTNEW × List Event :=
  if r1.1 = DhtStatus.ok then r1
  else detectFinish ((detectA r1.2.1)._read now i2) r1.2.2

/-- Method `DHTNEW::read()` (dhtnew.cpp lines 85-114).  `now` is millis() at the
gate check; `nowAfterWait` is millis() when the blocking wait loop (lines
94-98) exits, used only on that path.  `i1` is the environment input of the
first transport performed (if any), `i2` that of the second detection
attempt (used only while the type is unknown). -/
def DHTNEW.read (s : DHTNEW) (now nowAfterWait : Nat) (i1 i2 : SensorInput) :
    DhtStatus × DHTNEW × List Event :=
  if (initReadDelay s)._type ≠ 0 then
    if now - (initReadDelay s)._lastRead < (initReadDelay s)._readDelay then
      if (initReadDelay s)._waitForRead = false then
        (DhtStatus.ok, initReadDelay s, ([] : List Event))
      else (initReadDelay s)._read nowAfterWait i1
    else (initReadDelay s)._read now i1
  else
    detectSecond ((detectB (initReadDelay s))._read now i1) now i2

/-- Method `DHTNEW::powerUp()` (dhtnew.cpp lines 173-178): drive the line high,
then perform a dummy full read; the read's status is discarded and nothing
is returned to the caller. -/
def DHTNEW.powerUp (s : DHTNEW) (now nowAfterWait : Nat) (i1 i2 : SensorInput) :
    DHTNEW × List Event :=
  ((s.read now nowAfterWait i1 i2).2.1,
   Event.writeHigh :: (s.read now nowAfterWait i1 i2).2.2)

/-- Method `DHTNEW::powerDown()` (dhtnew.cpp lines 180-183): drive the line low. -/
def DHTNEW.powerDown (s : DHTNEW) : DHTNEW × List Event :=
  (s, [Event.writeLow])

/-! ## Concrete fixtures used by witnesses and counterexamples -/

/-- A transport attempt that fails in the first acknowledge stage. -/
def iFail : SensorInput := SensorInput.hwFail HwFailure.timeoutA Frame.zero

/-- A well-formed frame: checksum 2 + 92 + 1 + 4 = 99 matches byte 4. -/
def fGood : Frame :=
  ⟨⟨2, by decide⟩, ⟨92, by decide⟩, ⟨1, by decide⟩, ⟨4, by decide⟩, ⟨99, by decide⟩⟩

/-- A frame with the temperature sign bit set (byte 2 = 0x80, byte 3 =
0x32); checksum (2 + 92 + 128 + 50) mod 256 = 16 matches byte 4. -/
def fNeg : Frame :=
  ⟨⟨2, by decide⟩, ⟨92, by decide⟩, ⟨128, by decide⟩, ⟨50, by decide⟩, ⟨16, by decide⟩⟩

/-- A frame whose first byte has the most significant bit set; its checksum
byte is even correct (128 = 128), so only the bit-shift check can reject it. -/
def fShift : Frame :=
  ⟨⟨128, by decide⟩, ⟨0, by decide⟩, ⟨0, by decide⟩, ⟨0, by decide⟩, ⟨128, by decide⟩⟩

/-- A frame decoding (for type 11) to base humidity 60, used for the
offset-clamp example; checksum 60 matches byte 4. -/
def fClamp : Frame :=
  ⟨⟨60, by decide⟩, ⟨0, by decide⟩, ⟨0, by decide⟩, ⟨0, by decide⟩, ⟨60, by decide⟩⟩

/-- A handle locked to type 22 with its read delay computed and a prior
read at t = 1000 ms. -/
def sB : DHTNEW := { DHTNEW.init 6 with _type := 22, _readDelay := 2000, _lastRead := 1000 }

/-- A fresh handle whose type was hinted to 22 (read delay still unset). -/
def sB0 : DHTNEW := { DHTNEW.init 6 with _type := 22 }

/-- A fresh handle hinted to type 11 with humidity offset +50. -/
def sA50 : DHTNEW := { DHTNEW.init 6 with _type := 11, _humOffset := 50 }

/-- Result of the first detection attempt (type-22 timing) on a fresh
handle at t = 5000 ms when the transport times out. -/
def c2r1 : DhtStatus × DHTNEW × List Event :=
  (detectB (initReadDelay (DHTNEW.init 6)))._read 5000 iFail

/-- The handle state after that failed first detection attempt. -/
def c2s1 : DHTNEW := c2r1.2.1

/-- The event trace of that failed first detection attempt. -/
def c2tr1 : List Event := c2r1.2.2

/-- Result of the second detection attempt (type-11 timing) on `c2s1` when
the transport yields the well-formed frame `fGood`. -/
def c2r2 : DhtStatus × DHTNEW × List Event :=
  (detectA c2s1)._read 5000 (SensorInput.frame fGood)

/-- The handle state after that successful second detection attempt. -/
def c2s2 : DHTNEW := c2r2.2.1

/-- The event trace of that successful second detection attempt. -/
def c2tr2 : List Event := c2r2.2.2

/-- A fresh handle after a first read whose initial detection attempt
succeeded with `fGood`: the handle is locked to type 22. -/
def c3s : DHTNEW :=
  ((DHTNEW.init 6).read 5000 5000 (SensorInput.frame fGood) iFail).2.1

/-! ## Basic reduction lemmas -/

/-- The lazy read-delay computation changes only the read delay field. -/
theorem initReadDelay_type (s : DHTNEW) : (initReadDelay s)._type = s._type := by
  unfold initReadDelay; split <;> rfl

theorem initReadDelay_lastRead (s : DHTNEW) : (initReadDelay s)._lastRead = s._lastRead := by
  unfold initReadDelay; split <;> rfl

theorem initReadDelay_waitForRead (s : DHTNEW) :
    (initReadDelay s)._waitForRead = s._waitForRead := by
  unfold initReadDelay; split <;> rfl

theorem initReadDelay_humidity (s : DHTNEW) : (initReadDelay s)._humidity = s._humidity := by
  unfold initReadDelay; split <;> rfl

theorem initReadDelay_temperature (s : DHTNEW) :
    (initReadDelay s)._temperature = s._temperature := by
  unfold initReadDelay; split <;> rfl

/-- Once the read delay is nonzero, the lazy computation is a no-op. -/
theorem initReadDelay_of_ne (s : DHTNEW) (h : s._readDelay ≠ 0) : initReadDelay s = s := by
  unfold initReadDelay; simp [h]

/-- Hardware failures are never reported as OK. -/
theorem HwFailure.toStatus_ne_ok (e : HwFailure) : e.toStatus ≠ DhtStatus.ok := by
  cases e <;> simp [HwFailure.toStatus]

/-- Running `_read` on a hardware failure: the failure code is propagated, the
time is stamped, and the values are clobbered with the sentinel exactly
when suppression is off. -/
theorem read1_fail (s : DHTNEW) (now : Nat) (e : HwFailure) (g : Frame) :
    s._read now (SensorInput.hwFail e g) =
      (e.toStatus,
       (if s._suppressError = false then
          { s with _bits := g, _lastRead := now,
                   _humidity := DHTLIB_INVALID_VALUE,
                   _temperature := DHTLIB_INVALID_VALUE }
        else { s with _bits := g, _lastRead := now }),
       [Event.transport (SensorInput.hwFail e g), Event.pinModeOutput, Event.writeHigh]) := by
  cases e <;>
    simp only [DHTNEW._read, DHTNEW._readSensor, DHTNEW.interpret, HwFailure.toStatus] <;>
    split <;> split <;> first | rfl | simp_all

/-- Running `_read` on a frame whose first byte has the MSB set: reported as
BitShift, values clobbered unless suppressed, time stamped. -/
theorem read1_bitshift (s : DHTNEW) (now : Nat) (f : Frame)
    (h : f.b0.val &&& 0x80 ≠ 0) :
    s._read now (SensorInput.frame f) =
      (DhtStatus.errBitShift,
       (if s._suppressError = false then
          { s with _bits := f, _lastRead := now,
                   _humidity := DHTLIB_INVALID_VALUE,
                   _temperature := DHTLIB_INVALID_VALUE }
        else { s with _bits := f, _lastRead := now }),
       [Event.transport (SensorInput.frame f), Event.pinModeOutput, Event.writeHigh]) := by
  have h1 : s._readSensor (SensorInput.frame f) =
      (DhtStatus.errBitShift, { s with _bits := f }) := by
    simp [DHTNEW._readSensor, h]
  simp only [DHTNEW._read, h1, DHTNEW.interpret]
  split <;> split <;> first | rfl | simp_all

/-- Running `_read` on a cleanly sampled frame: the values are decoded, offset and
stored unconditionally; the status is decided by the checksum equation on
the raw bytes. -/
theorem read1_frame (s : DHTNEW) (now : Nat) (f : Frame)
    (hbs : f.b0.val &&& 0x80 = 0) :
    s._read now (SensorInput.frame f) =
      ((if f.b4.val ≠ (f.b0.val + f.b1.val + f.b2.val + f.b3.val) % 256
        then DhtStatus.errChecksum else DhtStatus.ok),
       { s with _bits := f, _lastRead := now,
                _humidity := constrain (decodeHumidityRaw s._type f + s._humOffset) 0 100,
                _temperature := applySign f (decodeTemperatureRaw s._type f) + s._tempOffset },
       [Event.transport (SensorInput.frame f), Event.pinModeOutput, Event.writeHigh]) := by
  have h1 : s._readSensor (SensorInput.frame f) = (DhtStatus.ok, { s with _bits := f }) := by
    simp [DHTNEW._readSensor, hbs]
  simp only [DHTNEW._read, h1, DHTNEW.interpret, decodeStore]
  split <;> split <;> first | rfl | simp_all

/-- The call `_read` never changes the sensor type. -/
theorem read1_type (s : DHTNEW) (now : Nat) (i : SensorInput) :
    (s._read now i).2.1._type = s._type := by
  cases i with
  | hwFail e g => rw [read1_fail]; split <;> rfl
  | frame f =>
      by_cases h : f.b0.val &&& 0x80 = 0
      · rw [read1_frame s now f h]
      · rw [read1_bitshift s now f h]; split <;> rfl

/-- The call `_read` never changes the read delay. -/
theorem read1_readDelay (s : DHTNEW) (now : Nat) (i : SensorInput) :
    (s._read now i).2.1._readDelay = s._readDelay := by
  cases i with
  | hwFail e g => rw [read1_fail]; split <;> rfl
  | frame f =>
      by_cases h : f.b0.val &&& 0x80 = 0
      · rw [read1_frame s now f h]
      · rw [read1_bitshift s now f h]; split <;> rfl

/-- The call `_read` stamps the current time into `_lastRead` on every path. -/
theorem read1_lastRead (s : DHTNEW) (now : Nat) (i : SensorInput) :
    (s._read now i).2.1._lastRead = now := by
  cases i with
  | hwFail e g => rw [read1_fail]; split <;> rfl
  | frame f =>
      by_cases h : f.b0.val &&& 0x80 = 0
      · rw [read1_frame s now f h]
      · rw [read1_bitshift s now f h]; split <;> rfl

/-- Claim C1: for a frame delivered by a successful transport (first byte
MSB clear, so the bit-shift check passes), `_read` returns OK exactly when
byte 4 equals the truncated sum of bytes 0-3, returns ChecksumError on any
mismatch, and in every case the decoded (offset-adjusted) humidity and
temperature have already been stored in the handle. -/
theorem claim_C1 (s : DHTNEW) (now : Nat) (f : Frame)
    (hbs : f.b0.val &&& 0x80 = 0) :
    ((s._read now (SensorInput.frame f)).1 = DhtStatus.ok ↔
       f.b4.val = (f.b0.val + f.b1.val + f.b2.val + f.b3.val) % 256)
    ∧ (f.b4.val ≠ (f.b0.val + f.b1.val + f.b2.val + f.b3.val) % 256 →
        (s._read now (SensorInput.frame f)).1 = DhtStatus.errChecksum)
    ∧ (s._read now (SensorInput.frame f)).2.1._humidity =
        constrain (decodeHumidityRaw s._type f + s._humOffset) 0 100
    ∧ (s._read now (SensorInput.frame f)).2.1._temperature =
        applySign f (decodeTemperatureRaw s._type f) + s._tempOffset := by
  rw [read1_frame s now f hbs]
  refine ⟨?_, ?_, rfl, rfl⟩
  · constructor
    · intro h; by_contra hne; simp [hne] at h
    · intro h; simp [h]
  · intro hne; simp [hne]

/-- Witness for C1 at the concrete frame `fGood` (checksum valid). -/
theorem claim_C1_witness :
    (fGood.b0.val &&& 0x80 = 0)
    ∧ ((((DHTNEW.init 6)._read 5000 (SensorInput.frame fGood)).1 = DhtStatus.ok ↔
          fGood.b4.val = (fGood.b0.val + fGood.b1.val + fGood.b2.val + fGood.b3.val) % 256)
       ∧ (fGood.b4.val ≠ (fGood.b0.val + fGood.b1.val + fGood.b2.val + fGood.b3.val) % 256 →
           ((DHTNEW.init 6)._read 5000 (SensorInput.frame fGood)).1 = DhtStatus.errChecksum)
       ∧ ((DHTNEW.init 6)._read 5000 (SensorInput.frame fGood)).2.1._humidity =
           constrain (decodeHumidityRaw (DHTNEW.init 6)._type fGood + (DHTNEW.init 6)._humOffset) 0 100
       ∧ ((DHTNEW.init 6)._read 5000 (SensorInput.frame fGood)).2.1._temperature =
           applySign fGood (decodeTemperatureRaw (DHTNEW.init 6)._type fGood) +
             (DHTNEW.init 6)._tempOffset) :=
  ⟨by decide, claim_C1 (DHTNEW.init 6) 5000 fGood (by decide)⟩

/-- Claim C7: whenever the transport phase fails with any failure code,
`_read` propagates exactly that code; the last-read timestamp is stamped on
every completed attempt (success or failure); and the values are
overwritten with the invalid sentinel unless suppression is enabled, in
which case they are exactly the values from before the call. -/
theorem claim_C7 (s : DHTNEW) (now : Nat) (inp : SensorInput)
    (hfail : (s._readSensor inp).1 ≠ DhtStatus.ok) :
    (s._read now inp).1 = (s._readSensor inp).1
    ∧ (∀ j : SensorInput, (s._read now j).2.1._lastRead = now)
    ∧ (s._suppressError = false →
        (s._read now inp).2.1._humidity = DHTLIB_INVALID_VALUE ∧
        (s._read now inp).2.1._temperature = DHTLIB_INVALID_VALUE)
    ∧ (s._suppressError = true →
        (s._read now inp).2.1._humidity = s._humidity ∧
        (s._read now inp).2.1._temperature = s._temperature) := by
  have hlr : ∀ j : SensorInput, (s._read now j).2.1._lastRead = now :=
    fun j => read1_lastRead s now j
  cases inp with
  | hwFail e g =>
      refine ⟨?_, hlr, ?_, ?_⟩
      · rw [read1_fail]; rfl
      · intro hsup; rw [read1_fail]; simp [hsup]
      · intro hsup; rw [read1_fail]; simp [hsup]
  | frame f =>
      by_cases h : f.b0.val &&& 0x80 = 0
      · exact absurd (by simp [DHTNEW._readSensor, h]) hfail
      · have h2 : (s._readSensor (SensorInput.frame f)).1 = DhtStatus.errBitShift := by
          simp [DHTNEW._readSensor, h]
        refine ⟨?_, hlr, ?_, ?_⟩
        · rw [read1_bitshift s now f h, h2]
        · intro hsup; rw [read1_bitshift s now f h]; simp [hsup]
        · intro hsup; rw [read1_bitshift s now f h]; simp [hsup]

/-- Witness for C7 at a concrete timed-out transport on a fresh handle. -/
theorem claim_C7_witness :
    (((DHTNEW.init 6)._readSensor iFail).1 ≠ DhtStatus.ok)
    ∧ (((DHTNEW.init 6)._read 5000 iFail).1 = ((DHTNEW.init 6)._readSensor iFail).1
       ∧ (∀ j : SensorInput, ((DHTNEW.init 6)._read 5000 j).2.1._lastRead = 5000)
       ∧ ((DHTNEW.init 6)._suppressError = false →
           ((DHTNEW.init 6)._read 5000 iFail).2.1._humidity = DHTLIB_INVALID_VALUE ∧
           ((DHTNEW.init 6)._read 5000 iFail).2.1._temperature = DHTLIB_INVALID_VALUE)
       ∧ ((DHTNEW.init 6)._suppressError = true →
           ((DHTNEW.init 6)._read 5000 iFail).2.1._humidity = (DHTNEW.init 6)._humidity ∧
           ((DHTNEW.init 6)._read 5000 iFail).2.1._temperature = (DHTNEW.init 6)._temperature)) :=
  ⟨by decide, claim_C7 (DHTNEW.init 6) 5000 iFail (by decide)⟩

/-- Claim C8: a sampled frame whose first byte has the most significant bit
set is reported as BitShift by the transport, `_read` propagates BitShift,
and the checksum is never consulted: the status is BitShift for every value
of the checksum byte, matching or not. -/
theorem claim_C8 (s : DHTNEW) (now : Nat) (f : Frame)
    (h : f.b0.val &&& 0x80 ≠ 0) :
    (s._readSensor (SensorInput.frame f)).1 = DhtStatus.errBitShift
    ∧ (s._read now (SensorInput.frame f)).1 = DhtStatus.errBitShift
    ∧ ∀ c : Fin 256,
        (s._read now (SensorInput.frame (Frame.mk f.b0 f.b1 f.b2 f.b3 c))).1 =
          DhtStatus.errBitShift := by
  refine ⟨by simp [DHTNEW._readSensor, h], ?_, fun c => ?_⟩
  · rw [read1_bitshift s now f h]
  · rw [read1_bitshift s now (Frame.mk f.b0 f.b1 f.b2 f.b3 c) h]

/-- Witness for C8 at the concrete frame `fShift` (first byte 0x80, and a
checksum byte that actually matches the truncated sum). -/
theorem claim_C8_witness :
    (fShift.b0.val &&& 0x80 ≠ 0)
    ∧ (fShift.b4.val = (fShift.b0.val + fShift.b1.val + fShift.b2.val + fShift.b3.val) % 256)
    ∧ ((sB._readSensor (SensorInput.frame fShift)).1 = DhtStatus.errBitShift
       ∧ (sB._read 5000 (SensorInput.frame fShift)).1 = DhtStatus.errBitShift
       ∧ ∀ c : Fin 256,
           (sB._read 5000 (SensorInput.frame
               (Frame.mk fShift.b0 fShift.b1 fShift.b2 fShift.b3 c))).1 =
             DhtStatus.errBitShift) :=
  ⟨by decide, by decide, claim_C8 sB 5000 fShift (by decide)⟩

/-- Claim C4: with zero calibration offsets, a successfully transported
frame is interpreted by exactly the per-variant formulas: for type 22
humidity = (byte0*256 + byte1)/10 and temperature magnitude =
((byte2 AND 0x7F)*256 + byte3)/10; for type 11 humidity = byte0 + byte1/10
and temperature magnitude = byte2 + byte3/10; and for both variants the
temperature is negated exactly when bit 7 of byte 2 is set.  (The humidity
equation is stated under the condition that the raw value is at most 100,
where the [0,100] clamp of the stored field is the identity.) -/
theorem claim_C4 (s : DHTNEW) (now : Nat) (f : Frame)
    (hbs : f.b0.val &&& 0x80 = 0) (hho : s._humOffset = 0) (hto : s._tempOffset = 0) :
    ((s._read now (SensorInput.frame f)).2.1._temperature =
      if f.b2.val &&& 0x80 ≠ 0 then
        -(if s._type = 22 then (((f.b2.val &&& 0x7F : Nat) : ℚ) * 256 + (f.b3.val : ℚ)) * (1 / 10)
          else (f.b2.val : ℚ) + (f.b3.val : ℚ) * (1 / 10))
      else
        (if s._type = 22 then (((f.b2.val &&& 0x7F : Nat) : ℚ) * 256 + (f.b3.val : ℚ)) * (1 / 10)
         else (f.b2.val : ℚ) + (f.b3.val : ℚ) * (1 / 10)))
    ∧ ((if s._type = 22 then ((f.b0.val : ℚ) * 256 + (f.b1.val : ℚ)) * (1 / 10)
        else (f.b0.val : ℚ) + (f.b1.val : ℚ) * (1 / 10)) ≤ 100 →
       (s._read now (SensorInput.frame f)).2.1._humidity =
         (if s._type = 22 then ((f.b0.val : ℚ) * 256 + (f.b1.val : ℚ)) * (1 / 10)
          else (f.b0.val : ℚ) + (f.b1.val : ℚ) * (1 / 10))) := by
  rw [read1_frame s now f hbs]
  constructor
  · show applySign f (decodeTemperatureRaw s._type f) + s._tempOffset = _
    rw [hto, add_zero]
    unfold applySign decodeTemperatureRaw
    rfl
  · intro hle
    show constrain (decodeHumidityRaw s._type f + s._humOffset) 0 100 = _
    rw [hho, add_zero]
    have h0 : 0 ≤ decodeHumidityRaw s._type f := by
      unfold decodeHumidityRaw; split <;> positivity
    have h100 : ¬ (decodeHumidityRaw s._type f > 100) := by
      rw [not_lt]
      unfold decodeHumidityRaw
      exact hle
    rw [constrain, if_neg (not_lt.mpr h0), if_neg h100]
    unfold decodeHumidityRaw
    rfl

/-- Witness for C4: a type-22 handle with zero offsets and the concrete
frame `fNeg` (byte2 = 0x80, byte3 = 0x32); additionally evaluates the
stored temperature to the spec example value -5. -/
theorem claim_C4_witness :
    (fNeg.b0.val &&& 0x80 = 0 ∧ sB0._humOffset = 0 ∧ sB0._tempOffset = 0)
    ∧ (((sB0._read 5000 (SensorInput.frame fNeg)).2.1._temperature =
        if fNeg.b2.val &&& 0x80 ≠ 0 then
          -(if sB0._type = 22 then (((fNeg.b2.val &&& 0x7F : Nat) : ℚ) * 256 + (fNeg.b3.val : ℚ)) * (1 / 10)
            else (fNeg.b2.val : ℚ) + (fNeg.b3.val : ℚ) * (1 / 10))
        else
          (if sB0._type = 22 then (((fNeg.b2.val &&& 0x7F : Nat) : ℚ) * 256 + (fNeg.b3.val : ℚ)) * (1 / 10)
           else (fNeg.b2.val : ℚ) + (fNeg.b3.val : ℚ) * (1 / 10)))
       ∧ ((if sB0._type = 22 then ((fNeg.b0.val : ℚ) * 256 + (fNeg.b1.val : ℚ)) * (1 / 10)
           else (fNeg.b0.val : ℚ) + (fNeg.b1.val : ℚ) * (1 / 10)) ≤ 100 →
          (sB0._read 5000 (SensorInput.frame fNeg)).2.1._humidity =
            (if sB0._type = 22 then ((fNeg.b0.val : ℚ) * 256 + (fNeg.b1.val : ℚ)) * (1 / 10)
             else (fNeg.b0.val : ℚ) + (fNeg.b1.val : ℚ) * (1 / 10))))
    ∧ (sB0._read 5000 (SensorInput.frame fNeg)).2.1._temperature = -5 :=
  ⟨⟨by decide, by decide, by decide⟩,
   claim_C4 sB0 5000 fNeg (by decide) (by decide) (by decide),
   by
     rw [read1_frame _ _ _ (by decide)]
     have hmask : ((128:Nat) &&& 127) = 0 := by decide
     norm_num [sB0, DHTNEW.init, fNeg, decodeTemperatureRaw, applySign, hmask]⟩

/-- Claim C5: on every successfully transported frame the stored humidity
is exactly clamp(raw + humidity offset) to [0,100] and the stored
temperature is exactly signed raw + temperature offset (no clamp); the
returned status is decided purely by the checksum equation over the raw
bytes (so offsets are applied before the checksum result is reported but
never affect it): changing both offsets leaves the status unchanged. -/
theorem claim_C5 (s : DHTNEW) (now : Nat) (f : Frame) (hOff tOff : ℚ)
    (hbs : f.b0.val &&& 0x80 = 0) :
    ((s._read now (SensorInput.frame f)).2.1._humidity =
       constrain (decodeHumidityRaw s._type f + s._humOffset) 0 100)
    ∧ ((s._read now (SensorInput.frame f)).2.1._temperature =
       applySign f (decodeTemperatureRaw s._type f) + s._tempOffset)
    ∧ ((s._read now (SensorInput.frame f)).1 =
        if f.b4.val ≠ (f.b0.val + f.b1.val + f.b2.val + f.b3.val) % 256
        then DhtStatus.errChecksum else DhtStatus.ok)
    ∧ (({ s with _humOffset := hOff, _tempOffset := tOff })._read now (SensorInput.frame f)).1 =
        (s._read now (SensorInput.frame f)).1 := by
  rw [read1_frame s now f hbs]
  refine ⟨rfl, rfl, rfl, ?_⟩
  rw [read1_frame { s with _humOffset := hOff, _tempOffset := tOff } now f hbs]

/-- Witness for C5: a type-11 handle with humidity offset +50 and the
concrete frame `fClamp` (raw humidity 60); additionally evaluates the
stored humidity to 100 — the clamped value — while the unclamped sum would
be 110. -/
theorem claim_C5_witness :
    (fClamp.b0.val &&& 0x80 = 0)
    ∧ (((sA50._read 5000 (SensorInput.frame fClamp)).2.1._humidity =
         constrain (decodeHumidityRaw sA50._type fClamp + sA50._humOffset) 0 100)
       ∧ ((sA50._read 5000 (SensorInput.frame fClamp)).2.1._temperature =
         applySign fClamp (decodeTemperatureRaw sA50._type fClamp) + sA50._tempOffset)
       ∧ ((sA50._read 5000 (SensorInput.frame fClamp)).1 =
           if fClamp.b4.val ≠
               (fClamp.b0.val + fClamp.b1.val + fClamp.b2.val + fClamp.b3.val) % 256
           then DhtStatus.errChecksum else DhtStatus.ok)
       ∧ (({ sA50 with _humOffset := (7 : ℚ), _tempOffset := (-3 : ℚ) })._read 5000
             (SensorInput.frame fClamp)).1 =
           (sA50._read 5000 (SensorInput.frame fClamp)).1)
    ∧ (sA50._read 5000 (SensorInput.frame fClamp)).2.1._humidity = 100
    ∧ decodeHumidityRaw sA50._type fClamp + sA50._humOffset = 110 :=
  ⟨by decide,
   claim_C5 sA50 5000 fClamp 7 (-3) (by decide),
   by
     rw [read1_frame _ _ _ (by decide)]
     norm_num [sA50, DHTNEW.init, fClamp, decodeHumidityRaw, constrain],
   by norm_num [sA50, DHTNEW.init, fClamp, decodeHumidityRaw]⟩

/-- Claim C6: with the variant known, blocking disabled and the elapsed
time under the minimum interval, `read` returns OK immediately; humidity,
temperature and the last-read timestamp are unchanged; the event trace is
empty (no pin operation, no sampling); and the result does not depend on
the transport inputs at all. -/
theorem claim_C6 (s : DHTNEW) (now nw : Nat) (i1 i2 j1 j2 : SensorInput)
    (ht : s._type ≠ 0) (hw : s._waitForRead = false)
    (hgate : now - s._lastRead < (initReadDelay s)._readDelay) :
    s.read now nw i1 i2 = (DhtStatus.ok, initReadDelay s, ([] : List Event))
    ∧ (initReadDelay s)._humidity = s._humidity
    ∧ (initReadDelay s)._temperature = s._temperature
    ∧ (initReadDelay s)._lastRead = s._lastRead
    ∧ s.read now nw i1 i2 = s.read now nw j1 j2 := by
  have h1 : (initReadDelay s)._type ≠ 0 := by rw [initReadDelay_type]; exact ht
  have h2 : (initReadDelay s)._waitForRead = false := by
    rw [initReadDelay_waitForRead]; exact hw
  have h3 : now - (initReadDelay s)._lastRead < (initReadDelay s)._readDelay := by
    rw [initReadDelay_lastRead]; exact hgate
  have key : ∀ k1 k2 : SensorInput,
      s.read now nw k1 k2 = (DhtStatus.ok, initReadDelay s, ([] : List Event)) := by
    intro k1 k2
    unfold DHTNEW.read
    rw [if_pos h1, if_pos h3, if_pos h2]
  exact ⟨key i1 i2, initReadDelay_humidity s, initReadDelay_temperature s,
    initReadDelay_lastRead s, by rw [key i1 i2, key j1 j2]⟩

/-- Witness for C6: the locked type-22 handle `sB` (last read at 1000 ms)
queried again at 1500 ms, well inside its 2000 ms interval, with two
different pairs of transport inputs. -/
theorem claim_C6_witness :
    (sB._type ≠ 0 ∧ sB._waitForRead = false ∧ 1500 - sB._lastRead < (initReadDelay sB)._readDelay)
    ∧ (sB.read 1500 1500 iFail iFail = (DhtStatus.ok, initReadDelay sB, ([] : List Event))
       ∧ (initReadDelay sB)._humidity = sB._humidity
       ∧ (initReadDelay sB)._temperature = sB._temperature
       ∧ (initReadDelay sB)._lastRead = sB._lastRead
       ∧ sB.read 1500 1500 iFail iFail =
           sB.read 1500 1500 (SensorInput.frame fGood) (SensorInput.frame fNeg)) :=
  ⟨⟨by decide, by decide, by decide⟩,
   claim_C6 sB 1500 1500 iFail iFail (SensorInput.frame fGood) (SensorInput.frame fNeg)
     (by decide) (by decide) (by decide)⟩

/-- Claim C10: `powerUp` drives the line high and then performs a full
internal read whose resulting handle state (humidity, temperature, variant
detection state, timestamp) is exactly that of a normal `read` with the
same inputs; the read's status code is discarded — `powerUp` returns only
the state and the hardware trace, so the caller cannot observe whether the
resynchronisation reading succeeded. -/
theorem claim_C10 (s : DHTNEW) (now nw : Nat) (i1 i2 : SensorInput) :
    (s.powerUp now nw i1 i2).1 = (s.read now nw i1 i2).2.1
    ∧ (s.powerUp now nw i1 i2).2 = Event.writeHigh :: (s.read now nw i1 i2).2.2 :=
  ⟨rfl, rfl⟩

/-- Claim C2: a `read` on a handle with unknown variant first attempts a
full transport-plus-interpretation with type-22 timing; if that attempt
returns OK the result is returned with the variant locked to 22; otherwise
it retries exactly once with type-11 timing, locking to 11 on success; if
both attempts fail the variant is reset to Unknown (0) and the second
attempt's failure code is returned.  Moreover any read on a handle with a
known variant never consults the second transport input (no re-attempt of
the other variant). -/
theorem claim_C2 (s s1 s2 : DHTNEW) (rv1 rv2 : DhtStatus) (tr1 tr2 : List Event)
    (now nw : Nat) (i1 i2 : SensorInput)
    (h0 : s._type = 0)
    (h1 : (detectB (initReadDelay s))._read now i1 = (rv1, s1, tr1))
    (h2 : (detectA s1)._read now i2 = (rv2, s2, tr2)) :
    (rv1 = DhtStatus.ok → s.read now nw i1 i2 = (DhtStatus.ok, s1, tr1) ∧ s1._type = 22)
    ∧ (rv1 ≠ DhtStatus.ok → rv2 = DhtStatus.ok →
        s.read now nw i1 i2 = (DhtStatus.ok, s2, tr1 ++ tr2) ∧ s2._type = 11)
    ∧ (rv1 ≠ DhtStatus.ok → rv2 ≠ DhtStatus.ok →
        (s.read now nw i1 i2).1 = rv2 ∧ (s.read now nw i1 i2).2.1._type = 0)
    ∧ (∀ (u : DHTNEW) (m m2 : Nat) (j1 j2 j3 : SensorInput), u._type ≠ 0 →
        u.read m m2 j1 j2 = u.read m m2 j1 j3) := by
  have hty1 : s1._type = 22 := by
    have h := read1_type (detectB (initReadDelay s)) now i1
    rw [h1] at h
    simpa [detectB] using h
  have hty2 : s2._type = 11 := by
    have h := read1_type (detectA s1) now i2
    rw [h2] at h
    simpa [detectA] using h
  have hcond : ¬ ((initReadDelay s)._type ≠ 0) := by
    rw [initReadDelay_type, h0]; simp
  have hread : s.read now nw i1 i2 =
      detectSecond ((detectB (initReadDelay s))._read now i1) now i2 := by
    unfold DHTNEW.read
    rw [if_neg hcond]
  refine ⟨?_, ?_, ?_, ?_⟩
  · intro hok
    rw [hread, h1]
    constructor
    · simp [detectSecond, hok]
    · exact hty1
  · intro hne hok
    rw [hread, h1]
    constructor
    · simp [detectSecond, hne, h2, detectFinish, hok]
    · exact hty2
  · intro hne hne2
    rw [hread, h1]
    constructor
    · simp [detectSecond, hne, h2, detectFinish, hne2]
    · simp [detectSecond, hne, h2, detectFinish, hne2]
  · intro u m m2 j1 j2 j3 hu
    have hcu : (initReadDelay u)._type ≠ 0 := by rw [initReadDelay_type]; exact hu
    unfold DHTNEW.read
    rw [if_pos hcu, if_pos hcu]

/-- Witness for C2: a fresh handle whose first detection attempt times out
(`iFail`) and whose second attempt delivers the valid frame `fGood`,
locking the variant to 11. -/
theorem claim_C2_witness :
    ((DHTNEW.init 6)._type = 0
     ∧ (detectB (initReadDelay (DHTNEW.init 6)))._read 5000 iFail =
         (DhtStatus.errTimeoutA, c2s1, c2tr1)
     ∧ (detectA c2s1)._read 5000 (SensorInput.frame fGood) = (DhtStatus.ok, c2s2, c2tr2))
    ∧ ((DhtStatus.errTimeoutA = DhtStatus.ok →
          (DHTNEW.init 6).read 5000 5000 iFail (SensorInput.frame fGood) =
            (DhtStatus.ok, c2s1, c2tr1) ∧ c2s1._type = 22)
       ∧ (DhtStatus.errTimeoutA ≠ DhtStatus.ok → DhtStatus.ok = DhtStatus.ok →
          (DHTNEW.init 6).read 5000 5000 iFail (SensorInput.frame fGood) =
            (DhtStatus.ok, c2s2, c2tr1 ++ c2tr2) ∧ c2s2._type = 11)
       ∧ (DhtStatus.errTimeoutA ≠ DhtStatus.ok → DhtStatus.ok ≠ DhtStatus.ok →
          ((DHTNEW.init 6).read 5000 5000 iFail (SensorInput.frame fGood)).1 = DhtStatus.ok ∧
          ((DHTNEW.init 6).read 5000 5000 iFail (SensorInput.frame fGood)).2.1._type = 0)
       ∧ (∀ (u : DHTNEW) (m m2 : Nat) (j1 j2 j3 : SensorInput), u._type ≠ 0 →
            u.read m m2 j1 j2 = u.read m m2 j1 j3)) :=
  ⟨⟨rfl, rfl, rfl⟩,
   claim_C2 (DHTNEW.init 6) c2s1 c2s2 DhtStatus.errTimeoutA DhtStatus.ok c2tr1 c2tr2
     5000 5000 iFail (SensorInput.frame fGood) rfl rfl rfl⟩

/-- Counterexample to claim C3: after a successful determination (a first
read whose initial attempt sampled the valid frame `fGood` locked the
variant to 22), a subsequent read whose full reading fails (transport
timeout) does NOT reset the variant to Unknown — it stays 22, so no
re-detection is forced on the next call, contradicting the claimed
transition discipline. -/
theorem claim_C3_cex :
    (((DHTNEW.init 6).read 5000 5000 (SensorInput.frame fGood) iFail).1 = DhtStatus.ok)
    ∧ (((DHTNEW.init 6).read 5000 5000 (SensorInput.frame fGood) iFail).2.1._type = 22)
    ∧ ((c3s.read 10000 10000 iFail iFail).1 ≠ DhtStatus.ok)
    ∧ ((c3s.read 10000 10000 iFail iFail).2.1._type = 22) := by
  refine ⟨by decide, by decide, by decide, by decide⟩

/-- Amended claim C3: the variant starts Unknown (0); once it holds a
concrete value (11 or 22) it is preserved by EVERY read, failed or not —
a failed full reading resets the variant to Unknown only when the variant
was still Unknown at the start of that call (detection); consequently the
variant never moves between the two concrete values, nor back to Unknown,
under any sequence of reads. -/
theorem claim_C3_amended (s : DHTNEW) (p now nw : Nat) (i1 i2 : SensorInput)
    (h : s._type = 11 ∨ s._type = 22) :
    (DHTNEW.init p)._type = 0
    ∧ (s.read now nw i1 i2).2.1._type = s._type
    ∧ ((s.read now nw i1 i2).2.1._type = 11 ∨ (s.read now nw i1 i2).2.1._type = 22) := by
  have ht : s._type ≠ 0 := by rcases h with h | h <;> rw [h] <;> simp
  have hcu : (initReadDelay s)._type ≠ 0 := by rw [initReadDelay_type]; exact ht
  have key : (s.read now nw i1 i2).2.1._type = s._type := by
    unfold DHTNEW.read
    rw [if_pos hcu]
    by_cases hg : now - (initReadDelay s)._lastRead < (initReadDelay s)._readDelay
    · rw [if_pos hg]
      by_cases hwf : (initReadDelay s)._waitForRead = false
      · rw [if_pos hwf]
        exact initReadDelay_type s
      · rw [if_neg hwf, read1_type]
        exact initReadDelay_type s
    · rw [if_neg hg, read1_type]
      exact initReadDelay_type s
  refine ⟨rfl, key, ?_⟩
  rw [key]
  exact h

/-- Witness for the amended C3: the locked type-22 handle `sB` read with a
failing transport keeps its concrete variant. -/
theorem claim_C3_amended_witness :
    (sB._type = 11 ∨ sB._type = 22)
    ∧ ((DHTNEW.init 7)._type = 0
       ∧ (sB.read 9000 9000 iFail iFail).2.1._type = sB._type
       ∧ ((sB.read 9000 9000 iFail iFail).2.1._type = 11 ∨
          (sB.read 9000 9000 iFail iFail).2.1._type = 22)) :=
  ⟨by decide, claim_C3_amended sB 7 9000 9000 iFail iFail (by decide)⟩

/-- Counterexample to claim C9: a fresh handle whose detection run fails
the type-22 attempt and succeeds the type-11 attempt locks the variant to
11 (VariantA, also visible through getType), yet its minimum read interval
is 2000 ms, not the claimed 1000 ms: the interval was computed lazily at
the start of the very first read, while the type was still Unknown, and is
not recomputed when the detected variant changes. -/
theorem claim_C9_cex :
    (((DHTNEW.init 6).read 5000 5000 iFail (SensorInput.frame fGood)).1 = DhtStatus.ok)
    ∧ (((DHTNEW.init 6).read 5000 5000 iFail (SensorInput.frame fGood)).2.1.getType = 11)
    ∧ (((DHTNEW.init 6).read 5000 5000 iFail (SensorInput.frame fGood)).2.1._readDelay = 2000)
    ∧ DHTLIB_DHT11_READ_DELAY = 1000 := by
  refine ⟨by decide, by decide, by decide, by decide⟩

/-- Amended claim C9: the minimum read interval is computed lazily at the
start of a read whenever it is unset (0), from the type value at that
moment — 1000 ms if the type is already 11, 2000 ms otherwise, including
when the type is still Unknown; once nonzero it is never recomputed by
`read`, even when the variant changes.  (So a handle that auto-detects
VariantA from Unknown keeps the 2000 ms interval; 1000 ms applies only
when the type was set to 11 before the first read.) -/
theorem claim_C9_amended (s u : DHTNEW) (now nw : Nat) (i1 i2 : SensorInput)
    (h0 : s._readDelay = 0) (hu : u._readDelay ≠ 0) :
    ((initReadDelay s)._readDelay =
      if s._type = 11 then DHTLIB_DHT11_READ_DELAY else DHTLIB_DHT22_READ_DELAY)
    ∧ (u.read now nw i1 i2).2.1._readDelay = u._readDelay := by
  constructor
  · unfold initReadDelay
    rw [if_pos h0]
  · have hinit : initReadDelay u = u := initReadDelay_of_ne u hu
    unfold DHTNEW.read
    rw [hinit]
    by_cases htu : u._type ≠ 0
    · rw [if_pos htu]
      by_cases hg : now - u._lastRead < u._readDelay
      · rw [if_pos hg]
        by_cases hwf : u._waitForRead = false
        · rw [if_pos hwf]
        · rw [if_neg hwf, read1_readDelay]
      · rw [if_neg hg, read1_readDelay]
    · rw [if_neg htu]
      unfold detectSecond
      by_cases hr1 : ((detectB u)._read now i1).1 = DhtStatus.ok
      · rw [if_pos hr1]
        rw [read1_readDelay]
        rfl
      · rw [if_neg hr1]
        unfold detectFinish
        by_cases hr2 : ((detectA ((detectB u)._read now i1).2.1)._read now i2).1 = DhtStatus.ok
        · rw [if_pos hr2]
          rw [read1_readDelay]
          show ((detectB u)._read now i1).2.1._readDelay = _
          rw [read1_readDelay]
          rfl
        · rw [if_neg hr2]
          show ((detectA ((detectB u)._read now i1).2.1)._read now i2).2.1._readDelay = _
          rw [read1_readDelay]
          show ((detectB u)._read now i1).2.1._readDelay = _
          rw [read1_readDelay]
          rfl

/-- Witness for the amended C9: a fresh unset handle (interval becomes
2000 ms since its type is Unknown) and the locked handle `sB` (interval
2000 ms preserved across a failing read). -/
theorem claim_C9_amended_witness :
    ((DHTNEW.init 6)._readDelay = 0 ∧ sB._readDelay ≠ 0)
    ∧ (((initReadDelay (DHTNEW.init 6))._readDelay =
         if (DHTNEW.init 6)._type = 11 then DHTLIB_DHT11_READ_DELAY
         else DHTLIB_DHT22_READ_DELAY)
       ∧ (sB.read 9000 9000 iFail iFail).2.1._readDelay = sB._readDelay) :=
  ⟨⟨by decide, by decide⟩,
   claim_C9_amended (DHTNEW.init 6) sB 9000 9000 iFail iFail (by decide) (by decide)⟩
